import Mathlib

/-!
Shallow embedding of `src/game_release_bot.py` (a Telegram release bot).

External collaborators (the TMDb HTTP API, the translators library, the
Telegram messaging sink) are modelled as oracle parameters; the Python
functions that consume them are translated line by line.  Python `dict`s
carrying item data become structures; a raised exception becomes
`Except` / an explicit error constructor; `None`/empty-string falsiness is
made explicit where the source branches on it.
-/

namespace GameReleaseBot

/-- Result of one call into the `translators` library: either a translated
string or a raised exception (`ts.translate_text` can throw). -/
inductive TransResult where
  | ok (s : String)
  | thrown
  deriving DecidableEq, Repr

/-- Embedding of `translate_text_blocking` (src lines 32-38): empty text
short-circuits to `""` (Python falsiness of `""`); an exception from the
translator library is caught and the original text is returned. -/
def translate_text_blocking (tr : String → TransResult) (text : String) : String :=
  if text = "" then ""
  else
    match tr text with
    | .ok t => t
    | .thrown => text

/-- A video entry of the TMDb `videos` payload, as read by `_parse_trailer`. -/
structure Video where
  vtype : String
  site : String
  key : String
  deriving DecidableEq, Repr

/-- Embedding of `_parse_trailer` (src lines 103-108): first video whose
type is "Trailer" and site is "YouTube" wins; absence gives `none`. -/
def _parse_trailer (videos : List Video) : Option String :=
  match videos.find? (fun v => v.vtype = "Trailer" && v.site = "YouTube") with
  | some v => some ("https://www.youtube.com/watch?v=" ++ v.key)
  | none => none

/-- A raw TMDb catalog record (`item` dict) with the fields the bot reads.
`poster_path` is `none` when the JSON field is null or absent; `overview`
is `none` when absent (the source reads it with `item.get("overview", "")`). -/
structure RawItem where
  id : Nat
  overview : Option String
  poster_path : Option String
  release_date : Option String
  deriving DecidableEq, Repr

/-- The detail payload returned by `_get_item_details_blocking` for one item:
its (possibly missing or empty) localized overview and its video list. -/
structure Details where
  overview : Option String
  videos : List Video
  deriving DecidableEq, Repr

/-- Oracle for `_get_item_details_blocking` (src lines 95-101): a detail
fetch either yields a payload or raises (`r.raise_for_status()` can throw). -/
def DetailsOracle := Nat → String → Except String Details

/-- Python `f"...{x}"` on a value that may be JSON null: `None` formats as
the string "None"; a present string formats as itself. -/
def pyFormatOpt : Option String → String
  | some s => s
  | none => "None"

/-- The enriched item dict built by `_enrich_item_data`: the spread of the
raw dict (`**item`) plus the keys the function adds or overwrites. -/
structure EnrichedItem where
  raw : RawItem
  item_type : String
  overview : String
  trailer_url : Option String
  poster_url : String
  deriving DecidableEq, Repr

/-- Embedding of `_enrich_item_data` (src lines 110-128): fetch details
(propagating a fetch exception), keep the details overview when truthy,
otherwise translate the raw item's overview; attach trailer and poster URL. -/
def _enrich_item_data (gd : DetailsOracle) (tr : String → TransResult)
    (item : RawItem) (item_type : String) : Except String EnrichedItem :=
  match gd item.id item_type with
  | .error e => .error e
  | .ok details =>
    let overview_ru :=
      match details.overview with
      | some s =>
          if s = "" then translate_text_blocking tr (item.overview.getD "") else s
      | none => translate_text_blocking tr (item.overview.getD "")
    .ok { raw := item
          item_type := item_type
          overview := overview_ru
          trailer_url := _parse_trailer details.videos
          poster_url := "https://image.tmdb.org/t/p/w780" ++ pyFormatOpt item.poster_path }

/-- Sequential enrichment of a list, mirroring the Python list comprehension
`[await _enrich_item_data(m, t) for m in releases]`: items are enriched in
order and the first raised exception aborts the whole call. -/
def enrichAll (gd : DetailsOracle) (tr : String → TransResult)
    (item_type : String) : List RawItem → Except String (List EnrichedItem)
  | [] => .ok []
  | m :: rest =>
      match _enrich_item_data gd tr m item_type with
      | .error e => .error e
      | .ok e =>
        match enrichAll gd tr item_type rest with
        | .error e2 => .error e2
        | .ok es => .ok (e :: es)

/-- Python truthiness of `m.get("poster_path")`: present and non-empty. -/
def posterTruthy (m : RawItem) : Bool :=
  match m.poster_path with
  | some p => p ≠ ""
  | none => false

/-- The release-selection step of `_get_todays_top_digital_releases_blocking`
(src lines 187-195): filter the RU-region results for a truthy poster path;
if none remain, fall back to the US-region results, filtered the same way. -/
def pickReleases (ruResults usResults : List RawItem) : List RawItem :=
  let releases := ruResults.filter posterTruthy
  if releases = [] then usResults.filter posterTruthy else releases

/-- Embedding of `_get_todays_top_digital_releases_blocking` (src lines
177-196): select releases, truncate to `limit`, enrich each in order. -/
def _get_todays_top_digital_releases_blocking (gd : DetailsOracle)
    (tr : String → TransResult) (ruResults usResults : List RawItem)
    (limit : Nat := 5) : Except String (List EnrichedItem) :=
  enrichAll gd tr "movie" ((pickReleases ruResults usResults).take limit)

/-- Outcome of media resolution as the spec's data model names it: a
verified displayable reference or an unavailability signal. -/
inductive ResolvedMedia where
  | verified (url : String)
  | unavailable
  deriving DecidableEq, Repr

/-- Poster-URL construction inside `_enrich_item_data` (src lines 122-128),
instrumented for observation: the media "resolution" of the bot is one
string concatenation at the single w780 quality variant.  The `probe`
oracle stands for any liveness check of a candidate URL; the second
component counts how many probe attempts the code performs (the source
never consults any probe, so it is always 0, and no branch can produce
`unavailable` or raise). -/
def resolve_media (_probe : String → Bool) (poster_path : Option String) :
    ResolvedMedia × Nat :=
  (.verified ("https://image.tmdb.org/t/p/w780" ++ pyFormatOpt poster_path), 0)

/-- Python `str.split("_")` on the character list of the callback data:
every `'_'` separates groups, empty groups included, as in CPython. -/
def splitUnderscore (cs : List Char) : List (List Char) :=
  match cs with
  | [] => [[]]
  | c :: rest =>
    let r := splitUnderscore rest
    if c = '_' then [] :: r
    else
      match r with
      | [] => [[c]]
      | g :: gs => (c :: g) :: gs

/-- Nonempty all-digit run to a number; `none` otherwise. -/
def digitsToNat? (cs : List Char) : Option Nat :=
  if cs = [] then none
  else if cs.all (fun c => c.isDigit) then
    some (cs.foldl (fun n c => 10 * n + (c.toNat - 48)) 0)
  else none

/-- Python `int(s)` on a token component: optional sign then digits,
anything else raises `ValueError` (modelled as `none`). -/
def pyInt? (cs : List Char) : Option Int :=
  match cs with
  | '-' :: rest => (digitsToNat? rest).map (fun n => -(n : Int))
  | '+' :: rest => (digitsToNat? rest).map (fun n => (n : Int))
  | _ => (digitsToNat? cs).map (fun n => (n : Int))

/-- Token decoding of `pagination_handler` (src lines 417-419):
`_, list_id, new_index_str = query.data.split("_")` followed by
`int(new_index_str)`; a wrong number of components or a non-numeric index
raises `ValueError`/`IndexError` (modelled as `none`). -/
def decodeToken (data : String) : Option (List Char × Int) :=
  match splitUnderscore data.data with
  | [_, list_id, new_index_str] =>
      (pyInt? new_index_str).map (fun i => (list_id, i))
  | _ => none

/-- The `bot_data['item_lists']` map: newest binding first, as produced by
repeated `store[list_id] = items` inserts with fresh uuid keys. -/
abbrev ItemLists := List (List Char × List EnrichedItem)

/-- Python `context.bot_data.get('item_lists', {}).get(list_id)`. -/
def getList (store : ItemLists) (k : List Char) : Option (List EnrichedItem) :=
  (store.find? (fun p => p.1 = k)).map (fun p => p.2)

/-- What a pagination render passes to the messaging sink as the media of
`InputMediaPhoto`: always a raw URL in this code; a provider-assigned
durable handle is the alternative the sink API also accepts. -/
inductive MediaRef where
  | rawUrl (url : String)
  | handle (h : Nat)
  deriving DecidableEq, Repr

/-- Tests whether a media reference is a provider-assigned durable handle. -/
def MediaRef.isHandle : MediaRef → Bool
  | .rawUrl _ => false
  | .handle _ => true

/-- Observable outcome of one `pagination_handler` invocation. -/
inductive NavOutcome where
  | editedMedia (index : Nat) (item : EnrichedItem) (media : MediaRef)
  | staleListMessage
  | silentReturn
  deriving DecidableEq, Repr

/-- The post-decode part of `pagination_handler` (src lines 420-444): look
the session key up in `bot_data['item_lists']`; a missing key, an empty
list or an out-of-range index all answer with the user-visible text
"Ошибка: список устарел. Запросите заново."; otherwise the indexed item is
re-rendered and the message media is edited to its raw poster URL.  The
handler never writes into `bot_data`. -/
def navigate (store : ItemLists) (list_id : List Char) (new_index : Int) :
    NavOutcome :=
  match getList store list_id with
  | none => .staleListMessage
  | some items =>
      if items = [] then .staleListMessage
      else if h : 0 ≤ new_index ∧ new_index < (items.length : Int) then
        .editedMedia new_index.toNat
          (items.get ⟨new_index.toNat, by omega⟩)
          (.rawUrl (items.get ⟨new_index.toNat, by omega⟩).poster_url)
      else .staleListMessage

/-- Embedding of `pagination_handler` (src lines 412-444): decode the
callback token; a decoding failure is swallowed by
`except (ValueError, IndexError): return` — a silent return with no
user-visible output; a decoded token proceeds to the session lookup. -/
def pagination_handler (store : ItemLists) (data : String) : NavOutcome :=
  match decodeToken data with
  | none => .silentReturn
  | some (list_id, new_index) => navigate store list_id new_index

/-- One inline keyboard button as the bot constructs it: a pagination
callback `page_{list_id}_{index}`, the inert `noop` callback, a reroll
callback, or a trailer URL button. -/
inductive Button where
  | page (list_id : String) (index : Int)
  | noop
  | reroll (data : String)
  | trailerLink (url : String)
  deriving DecidableEq, Repr

/-- The navigation row of `format_item_message` (src lines 261-265): a back
button encoding `current_index - 1` when `current_index > 0` (else an inert
noop), the `[i/n]` counter (noop callback), and a forward button encoding
`current_index + 1` when `current_index < total_count - 1` (else noop). -/
def nav_buttons (list_id : String) (current_index total_count : Int) :
    List Button :=
  [ if current_index > 0 then .page list_id (current_index - 1) else .noop,
    .noop,
    if current_index < total_count - 1 then .page list_id (current_index + 1)
    else .noop ]

/-- The `action_buttons` row of `format_item_message` (src lines 268-271):
the optional reroll button followed by the optional trailer button. -/
def action_buttons_row (reroll_data trailer_url : Option String) :
    List Button :=
  (match reroll_data with
   | some d => [Button.reroll d]
   | none => []) ++
  (match trailer_url with
   | some u => [Button.trailerLink u]
   | none => [])

/-- The inline keyboard built by `format_item_message` (src lines 259-273):
the navigation row only when paginated over more than one item, then the
action row when it is non-empty. -/
def format_item_message_keyboard (is_paginated : Bool)
    (current_index total_count : Int) (list_id : String)
    (reroll_data : Option String) (trailer_url : Option String) :
    List (List Button) :=
  let keyboard :=
    if is_paginated ∧ total_count > 1 then
      [nav_buttons list_id current_index total_count]
    else []
  let action_buttons := action_buttons_row reroll_data trailer_url
  if action_buttons = [] then keyboard else keyboard ++ [action_buttons]

/-- Result of one send attempt against the Telegram sink. -/
inductive SendResult where
  | ok
  | err
  deriving DecidableEq, Repr

/-- The messaging sink as `releases_movie_command` uses it: the outcome of
`reply_photo` for a given photo URL. -/
def Sink := String → SendResult

/-- Observable outcome of `releases_movie_command` towards the user. -/
inductive CommandOutcome where
  | sentPhoto
  | noItemsMessage
  | errorText
  | sentDegraded (reason : String)
  deriving DecidableEq, Repr

/-- Embedding of `releases_movie_command` (src lines 312-327): fetch
today's releases (any exception up to and including the `reply_photo` send
is caught by the one broad `except`, which replies with the fixed text
"Произошла ошибка при получении данных."); an empty fetch answers with a
"nothing found" message; otherwise the list is committed into
`bot_data['item_lists']` under a fresh key and the first item's photo is
sent.  No placeholder image exists anywhere in the code. -/
def releases_movie_command (sink : Sink)
    (fetched : Except String (List EnrichedItem)) (store : ItemLists)
    (list_id : List Char) : ItemLists × CommandOutcome :=
  match fetched with
  | .error _ => (store, .errorText)
  | .ok [] => (store, .noItemsMessage)
  | .ok (first :: rest) =>
      let store1 : ItemLists := (list_id, first :: rest) :: store
      match sink first.poster_url with
      | .ok => (store1, .sentPhoto)
      | .err => (store1, .errorText)

/-- A timestamped view of the `bot_data['item_lists']` store used to state
lifetime properties: each commit records the wall-clock instant at which
`store[list_id] = items` ran.  The code itself records no timestamp and
runs no eviction of any kind. -/
abbrev TimedStore := List (List Char × List EnrichedItem × Nat)

/-- One commit `context.bot_data.setdefault('item_lists', {})[k] = items`
(src lines 321-322), timestamped: a plain insert, nothing is removed. -/
def commitList (store : TimedStore) (k : List Char)
    (items : List EnrichedItem) (now : Nat) : TimedStore :=
  (k, items, now) :: store

/-- The store reached from an initial store by a sequence of commits. -/
def commitAll (store : TimedStore)
    (ops : List (List Char × List EnrichedItem × Nat)) : TimedStore :=
  ops.foldl (fun st op => commitList st op.1 op.2.1 op.2.2) store

section ConcreteValues

/-- A raw item with a poster path, used to exercise the pipeline. -/
def exItemA : RawItem :=
  { id := 1, overview := some "hello", poster_path := some "/a.jpg",
    release_date := some "2026-10-12" }

/-- A raw item whose media pointer is null (no poster path). -/
def exItemB : RawItem :=
  { id := 2, overview := some "world", poster_path := none,
    release_date := none }

/-- A detail payload that already carries a non-empty localized overview. -/
def exDetails : Details := { overview := some "ru-text", videos := [] }

/-- A detail oracle that always answers with `exDetails`. -/
def exGd : DetailsOracle := fun _ _ => .ok exDetails

/-- A translator oracle that always throws. -/
def exTrThrown : String → TransResult := fun _ => .thrown

/-- The enrichment of `exItemA` under `exGd` (overview taken from details). -/
def exEnrichedA : EnrichedItem :=
  { raw := exItemA, item_type := "movie", overview := "ru-text",
    trailer_url := none,
    poster_url := "https://image.tmdb.org/t/p/w780/a.jpg" }

/-- A concrete session key for the pagination store. -/
def exKey : List Char := "k1".data

/-- A one-session pagination store holding the single item `exEnrichedA`. -/
def exStore : ItemLists := [(exKey, [exEnrichedA])]

/-- A detail payload with no overview at all. -/
def exDetailsEmpty : Details := { overview := none, videos := [] }

/-- A detail oracle that always answers with the overview-less payload. -/
def exGdEmpty : DetailsOracle := fun _ _ => .ok exDetailsEmpty

/-- A sink that rejects the raw poster URL of `exEnrichedA` but accepts any
other media send (in particular, it would accept a placeholder image). -/
def exSinkRejectA : Sink :=
  fun url => if url = exEnrichedA.poster_url then .err else .ok

/-- Raw batch item 1 of 5 (has a poster path). -/
def exR11 : RawItem :=
  { id := 11, overview := some "a", poster_path := some "/p1.jpg",
    release_date := none }

/-- Raw batch item 2 of 5 (null media pointer). -/
def exR12 : RawItem :=
  { id := 12, overview := some "b", poster_path := none, release_date := none }

/-- Raw batch item 3 of 5 (has a poster path). -/
def exR13 : RawItem :=
  { id := 13, overview := some "c", poster_path := some "/p3.jpg",
    release_date := none }

/-- Raw batch item 4 of 5 (null media pointer). -/
def exR14 : RawItem :=
  { id := 14, overview := some "d", poster_path := none, release_date := none }

/-- Raw batch item 5 of 5 (has a poster path). -/
def exR15 : RawItem :=
  { id := 15, overview := some "e", poster_path := some "/p5.jpg",
    release_date := none }

/-- A five-item source batch of which two items carry a null media pointer
(no poster path). -/
def exBatch5 : List RawItem := [exR11, exR12, exR13, exR14, exR15]

/-- The enrichment a raw item receives under the oracle `exGd` (details
overview "ru-text", no videos). -/
def exEnrichOf (m : RawItem) : EnrichedItem :=
  { raw := m, item_type := "movie", overview := "ru-text", trailer_url := none,
    poster_url := "https://image.tmdb.org/t/p/w780" ++ pyFormatOpt m.poster_path }

/-- A reachable timestamped store: two commits, at second 0 and at second
1000000 (more than a 24h = 86400 s retention window apart). -/
def exTimedStore : TimedStore :=
  commitAll [] [(exKey, [exEnrichedA], 0), ("k2".data, [exEnrichedA], 1000000)]

end ConcreteValues

/-- `pagination_handler` with the session store threaded explicitly: the
handler body (src lines 412-444) contains no assignment into `bot_data`,
so a render returns the store it was given, unchanged, along with its
outcome. -/
def pagination_render (store : ItemLists) (k : List Char) (i : Int) :
    ItemLists × NavOutcome :=
  (store, navigate store k i)

/-- Two consecutive renders of the same session index (the spec's
"deliver twice on the same EnrichedItem"), threading the store through:
the result is the final store and both outcomes. -/
def render_twice (store : ItemLists) (k : List Char) (i : Int) :
    ItemLists × NavOutcome × NavOutcome :=
  let r1 := pagination_render store k i
  let r2 := pagination_render r1.1 k i
  (r2.1, r1.2, r2.2)

section Helpers

/-- A successful per-item enrichment spreads the raw dict: the raw fields
of the result are exactly the input item. -/
theorem enrich_ok_raw (gd : DetailsOracle) (tr : String → TransResult)
    (item : RawItem) (ty : String) (e : EnrichedItem)
    (h : _enrich_item_data gd tr item ty = .ok e) : e.raw = item := by
  unfold _enrich_item_data at h
  cases hgd : gd item.id ty with
  | error s => rw [hgd] at h; cases h
  | ok d => rw [hgd] at h; cases h; rfl

/-- A successful enrichment of a list enriches the items pointwise, in
order: the result is `Forall₂`-related to the input by per-item success. -/
theorem enrichAll_ok_forall₂ (gd : DetailsOracle) (tr : String → TransResult)
    (ty : String) :
    ∀ (xs : List RawItem) (ys : List EnrichedItem),
      enrichAll gd tr ty xs = .ok ys →
      List.Forall₂ (fun m e => _enrich_item_data gd tr m ty = .ok e) xs ys := by
  intro xs
  induction xs with
  | nil =>
      intro ys h
      unfold enrichAll at h
      cases h
      exact List.Forall₂.nil
  | cons m rest ih =>
      intro ys h
      unfold enrichAll at h
      cases he : _enrich_item_data gd tr m ty with
      | error s => rw [he] at h; cases h
      | ok e =>
          rw [he] at h
          cases hr : enrichAll gd tr ty rest with
          | error s2 => rw [hr] at h; cases h
          | ok es =>
              rw [hr] at h
              cases h
              exact List.Forall₂.cons he (ih es hr)

/-- A successful enrichment of a list maps back to the input under the
raw-dict projection (hence: same length, same order). -/
theorem enrichAll_ok_map_raw (gd : DetailsOracle) (tr : String → TransResult)
    (ty : String) (xs : List RawItem) (ys : List EnrichedItem)
    (h : enrichAll gd tr ty xs = .ok ys) : ys.map EnrichedItem.raw = xs := by
  have h2 := enrichAll_ok_forall₂ gd tr ty xs ys h
  clear h
  induction h2 with
  | nil => rfl
  | cons hme _ ih =>
      simp only [List.map_cons, ih]
      rw [enrich_ok_raw _ _ _ _ _ hme]

end Helpers

/-- C1: a successful pipeline run enriches exactly the accepted input
sequence (the poster-filtered releases truncated to `limit`): the output
has the same length, and the i-th enriched item is derived from the i-th
raw item, witnessed by the raw-projection equality. -/
theorem enrich_preserves_length_and_order (gd : DetailsOracle)
    (tr : String → TransResult) (ruResults usResults : List RawItem)
    (limit : Nat) (out : List EnrichedItem)
    (h : _get_todays_top_digital_releases_blocking gd tr ruResults usResults
          limit = .ok out) :
    out.map EnrichedItem.raw = (pickReleases ruResults usResults).take limit ∧
    out.length = ((pickReleases ruResults usResults).take limit).length := by
  have hm := enrichAll_ok_map_raw gd tr "movie"
    ((pickReleases ruResults usResults).take limit) out h
  refine ⟨hm, ?_⟩
  calc out.length = (out.map EnrichedItem.raw).length := (List.length_map _ _).symm
    _ = ((pickReleases ruResults usResults).take limit).length := by rw [hm]

/-- C1 witness: the pipeline on the one-item batch `[exItemA]` returns the
one-item enrichment, whose raw projection is the accepted input. -/
theorem enrich_preserves_length_and_order_witness :
    [exEnrichedA].map EnrichedItem.raw = (pickReleases [exItemA] []).take 5 ∧
    [exEnrichedA].length = ((pickReleases [exItemA] []).take 5).length :=
  enrich_preserves_length_and_order exGd exTrThrown [exItemA] [] 5 [exEnrichedA]
    (by rfl)

section MoreHelpers

/-- When the translator oracle throws, `translate_text_blocking` returns
its input unchanged (the `except` branch of src lines 36-38). -/
theorem translate_thrown (tr : String → TransResult) (text : String)
    (h : tr text = .thrown) : translate_text_blocking tr text = text := by
  unfold translate_text_blocking
  by_cases he : text = ""
  · rw [if_pos he, he]
  · rw [if_neg he, h]

/-- Per-item enrichment succeeds whenever the detail fetch succeeds: no
other step of `_enrich_item_data` can raise. -/
theorem enrich_ok_of_gd (gd : DetailsOracle) (tr : String → TransResult)
    (m : RawItem) (ty : String) (d : Details) (h : gd m.id ty = .ok d) :
    ∃ e, _enrich_item_data gd tr m ty = .ok e := by
  unfold _enrich_item_data
  rw [h]
  exact ⟨_, rfl⟩

/-- List enrichment succeeds with full length whenever every item's detail
fetch succeeds, whatever the translator does. -/
theorem enrichAll_ok_of_gd (gd : DetailsOracle) (tr : String → TransResult)
    (ty : String) :
    ∀ xs : List RawItem, (∀ m ∈ xs, ∃ dm, gd m.id ty = .ok dm) →
      ∃ ys, enrichAll gd tr ty xs = .ok ys ∧ ys.length = xs.length := by
  intro xs
  induction xs with
  | nil => exact fun _ => ⟨[], rfl, rfl⟩
  | cons m rest ih =>
      intro hall
      obtain ⟨dm, hdm⟩ := hall m (List.mem_cons_self m rest)
      obtain ⟨e, he⟩ := enrich_ok_of_gd gd tr m ty dm hdm
      obtain ⟨ys, hys, hlen⟩ := ih (fun x hx => hall x (List.mem_cons_of_mem m hx))
      refine ⟨e :: ys, ?_, by simp [hlen]⟩
      unfold enrichAll
      rw [he, hys]

end MoreHelpers

/-- C4: when the detail payload has no (or an empty) localized overview and
the translator call for an item's text throws, that item's enrichment still
succeeds and its overview equals the original untranslated text; and a
whole enrichment call over any batch whose detail fetches succeed returns
one output per input, whatever the translator does. -/
theorem translation_failure_keeps_original (gd : DetailsOracle)
    (tr : String → TransResult) (item : RawItem) (d : Details)
    (hgd : gd item.id "movie" = .ok d)
    (hov : d.overview = none ∨ d.overview = some "")
    (htr : tr (item.overview.getD "") = .thrown)
    (xs : List RawItem)
    (hall : ∀ m ∈ xs, ∃ dm, gd m.id "movie" = .ok dm) :
    (∃ e, _enrich_item_data gd tr item "movie" = .ok e ∧
       e.overview = item.overview.getD "") ∧
    (∃ ys, enrichAll gd tr "movie" xs = .ok ys ∧ ys.length = xs.length) := by
  refine ⟨?_, enrichAll_ok_of_gd gd tr "movie" xs hall⟩
  unfold _enrich_item_data
  rw [hgd]
  cases hov with
  | inl hnone =>
      refine ⟨_, rfl, ?_⟩
      simp only [hnone]
      exact translate_thrown tr _ htr
  | inr hempty =>
      refine ⟨_, rfl, ?_⟩
      simp only [hempty, if_pos]
      exact translate_thrown tr _ htr

/-- C4 witness: with an always-throwing translator and overview-less
details, enriching `exItemB` keeps its original text "world", and the
two-item batch still yields two items. -/
theorem translation_failure_keeps_original_witness :
    (∃ e, _enrich_item_data exGdEmpty exTrThrown exItemB "movie" = .ok e ∧
       e.overview = exItemB.overview.getD "") ∧
    (∃ ys, enrichAll exGdEmpty exTrThrown "movie" [exItemA, exItemB] = .ok ys ∧
       ys.length = [exItemA, exItemB].length) :=
  translation_failure_keeps_original exGdEmpty exTrThrown exItemB exDetailsEmpty
    (by rfl) (Or.inl rfl) (by rfl) [exItemA, exItemB]
    (fun m _ => ⟨exDetailsEmpty, rfl⟩)

/-- C2: for a committed session of k items (non-empty, as every commit
site guards `if not items: return` before committing), navigation at any
index `0 ≤ i < k` re-renders exactly the stored i-th item, and any index
`i < 0` or `i ≥ k` answers with the boundary "request again" message — no
clamping, no crash. -/
theorem session_get_in_range_and_bounds (store : ItemLists) (k : List Char)
    (items : List EnrichedItem) (hk : getList store k = some items)
    (hne : items ≠ []) :
    (∀ i : Int, (h0 : 0 ≤ i) → (hi : i < (items.length : Int)) →
      navigate store k i =
        .editedMedia i.toNat (items.get ⟨i.toNat, by omega⟩)
          (.rawUrl (items.get ⟨i.toNat, by omega⟩).poster_url)) ∧
    (∀ i : Int, i < 0 ∨ (items.length : Int) ≤ i →
      navigate store k i = .staleListMessage) := by
  constructor
  · intro i h0 hi
    unfold navigate
    rw [hk]
    simp only [if_neg hne]
    rw [dif_pos ⟨h0, hi⟩]
  · intro i hout
    unfold navigate
    rw [hk]
    simp only [if_neg hne]
    rw [dif_neg (by omega)]

/-- C2 witness: on the one-item store, index 0 renders the stored item and
indices -1 and 1 hit the boundary message. -/
theorem session_get_in_range_and_bounds_witness :
    navigate exStore exKey 0 =
      .editedMedia 0 exEnrichedA (.rawUrl exEnrichedA.poster_url) ∧
    navigate exStore exKey (-1) = .staleListMessage ∧
    navigate exStore exKey 1 = .staleListMessage := by
  have h := session_get_in_range_and_bounds exStore exKey [exEnrichedA]
    (by rfl) (by simp)
  exact ⟨h.1 0 (by omega) (by simp), h.2 (-1) (by omega), h.2 1 (by simp)⟩

/-- C7 amended: navigation on an unknown or evicted session key answers
with the user-visible "request again" message and never crashes; but a
navigation token that fails to decode is swallowed by the bare
`except (ValueError, IndexError): return` — a silent no-op, not a distinct
user-visible outcome. -/
theorem unknown_session_message_and_silent_decode_failure :
    (∀ (store : ItemLists) (k : List Char) (i : Int),
      getList store k = none → navigate store k i = .staleListMessage) ∧
    (∀ (store : ItemLists) (data : String),
      decodeToken data = none → pagination_handler store data = .silentReturn) := by
  constructor
  · intro store k i hk
    unfold navigate
    rw [hk]
  · intro store data hdata
    unfold pagination_handler
    rw [hdata]

/-- C7 witness: an unknown key on the empty store gets the "request again"
message; the malformed token "page_abc_xyz" is dropped silently. -/
theorem unknown_session_message_and_silent_decode_failure_witness :
    navigate [] exKey 0 = .staleListMessage ∧
    pagination_handler [] "page_abc_xyz" = .silentReturn :=
  ⟨(unknown_session_message_and_silent_decode_failure).1 [] exKey 0 (by rfl),
   (unknown_session_message_and_silent_decode_failure).2 [] "page_abc_xyz"
     (by decide)⟩

/-- C7 counterexample: the token "page_abc_xyz" fails to decode (its index
component is not an integer), yet the handler's outcome is the silent
return — not a distinct user-visible SessionExpired/InvalidToken response,
contradicting the claim that decoding failure is never a silent no-op. -/
theorem decode_failure_is_silent_noop :
    decodeToken "page_abc_xyz" = none ∧
    pagination_handler [] "page_abc_xyz" = .silentReturn ∧
    NavOutcome.silentReturn ≠ NavOutcome.staleListMessage := by
  refine ⟨by decide, by decide, by decide⟩

/-- C3 counterexample: against a sink that rejects the raw poster URL of
the first item but would accept any other media send (in particular a
static placeholder image), `releases_movie_command` answers with the
generic error text — never a degraded caption-with-placeholder delivery:
no placeholder send exists in the code. -/
theorem raw_send_rejected_is_error_text_not_degraded :
    exSinkRejectA "placeholder.png" = .ok ∧
    (releases_movie_command exSinkRejectA (.ok [exEnrichedA]) [] exKey).2 =
      .errorText ∧
    (releases_movie_command exSinkRejectA (.ok [exEnrichedA]) [] exKey).2 ≠
      .sentDegraded "media-unavailable" := by
  refine ⟨by decide, by decide, by decide⟩

/-- C3 amended: when the photo send of the first fetched item fails, the
one broad `except` of `releases_movie_command` catches it and replies with
the fixed error text "Произошла ошибка при получении данных."; no
placeholder-image stage is attempted, so the outcome is the error text and
in particular never `SentDegraded`. -/
theorem photo_send_failure_yields_error_text (sink : Sink) (store : ItemLists)
    (k : List Char) (first : EnrichedItem) (rest : List EnrichedItem)
    (hs : sink first.poster_url = .err) :
    (releases_movie_command sink (.ok (first :: rest)) store k).2 =
      .errorText := by
  show (match sink first.poster_url with
        | SendResult.ok => ((k, first :: rest) :: store, CommandOutcome.sentPhoto)
        | SendResult.err =>
            ((k, first :: rest) :: store, CommandOutcome.errorText)).2 =
      CommandOutcome.errorText
  rw [hs]

/-- C3 witness: the amended behavior at the concrete rejecting sink. -/
theorem photo_send_failure_yields_error_text_witness :
    (releases_movie_command exSinkRejectA (.ok [exEnrichedA]) [] exKey).2 =
      .errorText :=
  photo_send_failure_yields_error_text exSinkRejectA [] exKey exEnrichedA []
    (by decide)

/-- C5 counterexample: with a probe oracle under which every liveness
probe of every quality variant fails, the media resolution still yields a
verified-looking poster URL after zero probe attempts — it does not return
Unavailable, and zero differs from the claimed 3 probes for the single
variant the code constructs. -/
theorem all_probes_fail_yet_no_probe_runs :
    resolve_media (fun _ => false) (some "/x.jpg") =
      (.verified "https://image.tmdb.org/t/p/w780/x.jpg", 0) ∧
    (resolve_media (fun _ => false) (some "/x.jpg")).1 ≠ .unavailable ∧
    (0 : Nat) ≠ 3 * 1 := by
  refine ⟨by decide, by decide, by decide⟩

/-- C5 amended: media resolution performs no liveness probing at all: for
every probe oracle and every media pointer it returns the verified w780
poster URL with exactly zero probe attempts, never `unavailable`, and —
being a total function — never throws. -/
theorem resolve_never_probes (probe : String → Bool)
    (poster_path : Option String) :
    resolve_media probe poster_path =
      (.verified ("https://image.tmdb.org/t/p/w780" ++
        pyFormatOpt poster_path), 0) :=
  rfl

/-- C6 counterexample: a 5-item source batch of which 2 items have a null
media pointer yields a 3-item result — the poster-less items are silently
dropped by the `if m.get("poster_path")` filter before enrichment, so a
5-item batch does not commit a 5-item session. -/
theorem five_item_batch_yields_three_items :
    exBatch5.length = 5 ∧
    (exBatch5.filter posterTruthy).length = 3 ∧
    (_get_todays_top_digital_releases_blocking exGd exTrThrown exBatch5 []
        5).toOption.map List.length = some 3 ∧
    (3 : Nat) ≠ 5 := by
  refine ⟨by decide, by decide, by decide, by decide⟩

/-- C6 amended: items lacking a truthy poster path are filtered out before
enrichment; every surviving item (up to the limit of 5) is enriched and the
whole fetched list is committed into the session store regardless of any
send outcome — no further item is dropped past that filter. -/
theorem filtered_batch_fully_committed (gd : DetailsOracle)
    (tr : String → TransResult) (ruResults usResults : List RawItem)
    (sink : Sink) (store : ItemLists) (k : List Char)
    (first : EnrichedItem) (rest : List EnrichedItem)
    (h : _get_todays_top_digital_releases_blocking gd tr ruResults usResults 5 =
          .ok (first :: rest)) :
    getList (releases_movie_command sink (.ok (first :: rest)) store k).1 k =
      some (first :: rest) ∧
    (first :: rest).map EnrichedItem.raw =
      (pickReleases ruResults usResults).take 5 ∧
    ∀ m ∈ pickReleases ruResults usResults, posterTruthy m = true := by
  have hstore : (releases_movie_command sink (.ok (first :: rest)) store k).1 =
      (k, first :: rest) :: store := by
    show (match sink first.poster_url with
          | SendResult.ok =>
              ((k, first :: rest) :: store, CommandOutcome.sentPhoto)
          | SendResult.err =>
              ((k, first :: rest) :: store, CommandOutcome.errorText)).1 =
        (k, first :: rest) :: store
    cases sink first.poster_url <;> rfl
  refine ⟨?_, enrichAll_ok_map_raw gd tr "movie" _ _ h, ?_⟩
  · rw [hstore]
    simp [getList]
  · intro m hm
    unfold pickReleases at hm
    by_cases hru : ruResults.filter posterTruthy = []
    · rw [if_pos hru] at hm
      exact (List.mem_filter.mp hm).2
    · rw [if_neg hru] at hm
      exact (List.mem_filter.mp hm).2

/-- C6 witness: the 5-item batch with 2 null media pointers commits the
3 filtered enrichments into the store, in order. -/
theorem filtered_batch_fully_committed_witness :
    getList (releases_movie_command exSinkRejectA
        (.ok (exEnrichOf exR11 :: [exEnrichOf exR13, exEnrichOf exR15])) []
        exKey).1 exKey =
      some (exEnrichOf exR11 :: [exEnrichOf exR13, exEnrichOf exR15]) ∧
    (exEnrichOf exR11 :: [exEnrichOf exR13, exEnrichOf exR15]).map
        EnrichedItem.raw = (pickReleases exBatch5 []).take 5 ∧
    ∀ m ∈ pickReleases exBatch5 [], posterTruthy m = true :=
  filtered_batch_fully_committed exGd exTrThrown exBatch5 [] exSinkRejectA []
    exKey (exEnrichOf exR11) [exEnrichOf exR13, exEnrichOf exR15] (by rfl)

/-- C8 counterexample: rendering the same in-session item twice leaves the
store unchanged both times and sends the raw poster URL both times: no
delivery handle is ever captured on the first successful send, stored on
the item, or reused by the second render. -/
theorem second_render_resends_raw_url :
    render_twice exStore exKey 0 =
      (exStore,
       .editedMedia 0 exEnrichedA (.rawUrl exEnrichedA.poster_url),
       .editedMedia 0 exEnrichedA (.rawUrl exEnrichedA.poster_url)) ∧
    MediaRef.isHandle (MediaRef.rawUrl exEnrichedA.poster_url) = false := by
  refine ⟨by decide, by decide⟩

/-- C8 amended: a pagination render never mutates the session store and
every media it sends is the item's raw poster URL — no delivery handle is
ever allocated, stored or reused (so, trivially, never allocated twice). -/
theorem render_never_allocates_handle (store : ItemLists) (k : List Char)
    (i : Int) :
    (pagination_render store k i).1 = store ∧
    ∀ idx item media, (pagination_render store k i).2 =
        .editedMedia idx item media → media = .rawUrl item.poster_url := by
  refine ⟨rfl, ?_⟩
  intro idx item media h
  replace h : navigate store k i = NavOutcome.editedMedia idx item media := h
  unfold navigate at h
  split at h
  · cases h
  · split at h
    · cases h
    · split at h
      · simp only [NavOutcome.editedMedia.injEq] at h
        obtain ⟨-, h2, h3⟩ := h
        rw [← h3, ← h2]
      · cases h

/-- C8 witness: at the concrete one-item store, the render leaves the
store unchanged and the sent media is the raw poster URL. -/
theorem render_never_allocates_handle_witness :
    (pagination_render exStore exKey 0).1 = exStore ∧
    MediaRef.rawUrl exEnrichedA.poster_url =
      .rawUrl exEnrichedA.poster_url :=
  ⟨(render_never_allocates_handle exStore exKey 0).1,
   (render_never_allocates_handle exStore exKey 0).2 0 exEnrichedA
     (.rawUrl exEnrichedA.poster_url) (by decide)⟩

/-- C9 counterexample: a reachable store state (two commits, the second
1000000 s after the first) still contains the entry committed at second 0
even though its age exceeds a 24h = 86400 s retention window, and both
entries are present — nothing is ever evicted. -/
theorem stale_entry_never_evicted :
    exTimedStore.length = 2 ∧
    (exKey, [exEnrichedA], (0 : Nat)) ∈ exTimedStore ∧
    1000000 - 0 > 86400 := by
  refine ⟨by decide, by decide, by decide⟩

/-- C9 amended: the session store only grows: a commit inserts its entry
and keeps every existing entry, and any sequence of commits from any store
adds exactly one entry per commit — there is no retention-window or
maximum-count eviction anywhere in the code. -/
theorem store_only_grows (store : TimedStore) (k : List Char)
    (items : List EnrichedItem) (now : Nat) :
    (∀ e ∈ store, e ∈ commitList store k items now) ∧
    (commitList store k items now).length = store.length + 1 ∧
    ∀ ops, (commitAll store ops).length = store.length + ops.length := by
  refine ⟨fun e he => List.mem_cons_of_mem _ he, rfl, ?_⟩
  intro ops
  induction ops generalizing store with
  | nil => rfl
  | cons op rest ih =>
      have h2 := ih (commitList store op.1 op.2.1 op.2.2)
      show (commitAll (commitList store op.1 op.2.1 op.2.2) rest).length =
        store.length + (rest.length + 1)
      rw [h2]
      show store.length + 1 + rest.length = store.length + (rest.length + 1)
      omega

/-- C9 witness: committing a third entry on top of the concrete two-entry
store keeps the old entry and grows the store by exactly one. -/
theorem store_only_grows_witness :
    (exKey, [exEnrichedA], (0 : Nat)) ∈
      commitList exTimedStore "k3".data [] 5 ∧
    (commitList exTimedStore "k3".data [] 5).length =
      exTimedStore.length + 1 ∧
    (commitAll exTimedStore [("k4".data, [], 6)]).length =
      exTimedStore.length + 1 :=
  ⟨(store_only_grows exTimedStore "k3".data [] 5).1 _ (by decide),
   (store_only_grows exTimedStore "k3".data [] 5).2.1,
   (store_only_grows exTimedStore "k3".data [] 5).2.2 [("k4".data, [], 6)]⟩

/-- Any pagination token in the navigation row of a render at an in-range
index encodes an index strictly inside the list bounds. -/
theorem nav_buttons_page_bounds (list_id lid : String) (ci total idx : Int)
    (h0 : 0 ≤ ci) (hlt : ci < total)
    (hb : Button.page lid idx ∈ nav_buttons list_id ci total) :
    0 ≤ idx ∧ idx < total := by
  unfold nav_buttons at hb
  simp only [List.mem_cons, List.not_mem_nil, or_false] at hb
  rcases hb with h | h | h
  · by_cases hc : ci > 0
    · rw [if_pos hc] at h
      simp only [Button.page.injEq] at h
      obtain ⟨-, h2⟩ := h
      omega
    · rw [if_neg hc] at h
      simp at h
  · simp at h
  · by_cases hc : ci < total - 1
    · rw [if_pos hc] at h
      simp only [Button.page.injEq] at h
      obtain ⟨-, h2⟩ := h
      omega
    · rw [if_neg hc] at h
      simp at h

/-- The action row (reroll and trailer buttons) contains no pagination
token. -/
theorem action_buttons_no_page (lid : String) (idx : Int)
    (rdata turl : Option String) :
    Button.page lid idx ∉ action_buttons_row rdata turl := by
  cases rdata <;> cases turl <;> simp [action_buttons_row]

/-- Every row of the inline keyboard is either the navigation row or the
action row. -/
theorem keyboard_rows (is_paginated : Bool) (ci total : Int)
    (list_id : String) (rdata turl : Option String) :
    ∀ row ∈ format_item_message_keyboard is_paginated ci total list_id
        rdata turl,
      row = nav_buttons list_id ci total ∨
      row = action_buttons_row rdata turl := by
  intro row hrow
  unfold format_item_message_keyboard at hrow
  dsimp only at hrow
  split at hrow
  · split at hrow
    · exact Or.inl (List.mem_singleton.mp hrow)
    · cases hrow
  · rcases List.mem_append.mp hrow with hl | hr
    · split at hl
      · exact Or.inl (List.mem_singleton.mp hl)
      · cases hl
    · exact Or.inr (List.mem_singleton.mp hr)

/-- C10: for every paginated render at an in-range position, every
pagination token the keyboard emits encodes an index strictly inside
[0, total_count); the back token is present (encoding current_index - 1)
exactly as soon as current_index > 0 and the forward token (encoding
current_index + 1) exactly as soon as current_index < total_count - 1. -/
theorem emitted_nav_tokens_in_range (list_id lid : String)
    (rdata turl : Option String) (ci total idx : Int)
    (h0 : 0 ≤ ci) (hlt : ci < total) :
    (∀ row ∈ format_item_message_keyboard true ci total list_id rdata turl,
      Button.page lid idx ∈ row → 0 ≤ idx ∧ idx < total) ∧
    (ci > 0 → Button.page list_id (ci - 1) ∈ nav_buttons list_id ci total) ∧
    (ci < total - 1 →
      Button.page list_id (ci + 1) ∈ nav_buttons list_id ci total) := by
  refine ⟨?_, ?_, ?_⟩
  · intro row hrow hb
    rcases keyboard_rows true ci total list_id rdata turl row hrow with h | h
    · subst h
      exact nav_buttons_page_bounds list_id lid ci total idx h0 hlt hb
    · subst h
      exact absurd hb (action_buttons_no_page lid idx rdata turl)
  · intro hgt
    unfold nav_buttons
    rw [if_pos hgt]
    exact List.mem_cons_self _ _
  · intro hfw
    simp [nav_buttons, hfw]

/-- C10 witness: at position 1 of 3, the back token encodes 0 and the
forward token encodes 2, both strictly inside [0, 3). -/
theorem emitted_nav_tokens_in_range_witness :
    ((0 : Int) ≤ 0 ∧ (0 : Int) < 3) ∧
    Button.page "L" 0 ∈ nav_buttons "L" 1 3 ∧
    Button.page "L" 2 ∈ nav_buttons "L" 1 3 :=
  ⟨(emitted_nav_tokens_in_range "L" "L" none none 1 3 0 (by decide)
      (by decide)).1 (nav_buttons "L" 1 3) (by decide) (by decide),
   (emitted_nav_tokens_in_range "L" "L" none none 1 3 0 (by decide)
      (by decide)).2.1 (by decide),
   (emitted_nav_tokens_in_range "L" "L" none none 1 3 0 (by decide)
      (by decide)).2.2 (by decide)⟩

end GameReleaseBot
